import Mathlib

/-!
Verification of the drug-repurposing analysis frontend (`druggs`).

The executable analysis logic of the repository lives in the React frontend:
`SearchInterface` (form submission), `App` (`handleSearch` and the local
`getMedicallyAccurateData` fallback data), and the `aiService` module
(`generateWithIntelligentFallback`, `analyzeDrugConditionPair`,
`calculateGenericScore` and the per-section generators).  Those functions are
embedded below as executable Lean definitions, translated statement by
statement from the JavaScript source.

The orchestration pipeline described by the design document (case classifier,
agent outcomes, weighted scoring engine, decision engine) is implemented by a
Python backend that is not part of the repository's files; only its
documentation is.  The definitions for that part are modelled from the spec
and are marked as such in their doc comments.
-/

/-! ## JavaScript string primitives

`String.prototype.includes`, `String.prototype.toLowerCase` and
`String.prototype.trim` as executable Lean functions over the character
list of a string. -/

/-- `pat.isPrefixOf s` over character lists: the JS substring search's
inner step. -/
def listPrefixOf : List Char → List Char → Bool
  | [], _ => true
  | _ :: _, [] => false
  | a :: pat, b :: s => a == b && listPrefixOf pat s

/-- Whether `pat` occurs as a contiguous substring of `s`. -/
def listContains (pat : List Char) : List Char → Bool
  | [] => pat.isEmpty
  | b :: s => listPrefixOf pat (b :: s) || listContains pat s

/-- JS `s.includes(pat)`: substring containment. -/
def strIncludes (s pat : String) : Bool :=
  listContains pat.data s.data

/-- JS `s.toLowerCase()` (ASCII case mapping, as `Char.toLower`). -/
def jsToLowerCase (s : String) : String :=
  String.mk (s.data.map Char.toLower)

/-- JS `s.trim()`: strip leading and trailing whitespace. -/
def jsTrim (s : String) : String :=
  String.mk (((s.data.dropWhile Char.isWhitespace).reverse.dropWhile
    Char.isWhitespace).reverse)

theorem listPrefixOf_append {pat s : List Char} (t : List Char)
    (h : listPrefixOf pat s = true) : listPrefixOf pat (s ++ t) = true := by
  induction pat generalizing s with
  | nil => simp [listPrefixOf]
  | cons a pat ih =>
    cases s with
    | nil => simp [listPrefixOf] at h
    | cons b s =>
      simp only [listPrefixOf, Bool.and_eq_true] at h
      simp only [List.cons_append, listPrefixOf, Bool.and_eq_true]
      exact ⟨h.1, ih h.2⟩

theorem listContains_nil_pat (s : List Char) : listContains [] s = true := by
  induction s with
  | nil => rfl
  | cons b s ih => simp [listContains, listPrefixOf]

theorem listContains_append {pat s : List Char} (t : List Char)
    (h : listContains pat s = true) : listContains pat (s ++ t) = true := by
  induction s with
  | nil =>
    simp only [listContains, List.isEmpty_iff] at h
    subst h
    exact listContains_nil_pat t
  | cons b s ih =>
    simp only [listContains, Bool.or_eq_true] at h
    rcases h with h | h
    · simp only [List.cons_append, listContains, Bool.or_eq_true]
      exact Or.inl (listPrefixOf_append t h)
    · simp only [List.cons_append, listContains, Bool.or_eq_true]
      exact Or.inr (ih h)

/-- Appending text to a string never removes a substring match. -/
theorem strIncludes_append (s t pat : String)
    (h : strIncludes s pat = true) : strIncludes (s ++ t) pat = true := by
  unfold strIncludes at h ⊢
  rw [String.data_append]
  exact listContains_append t.data h

/-! ## aiService: `analyzeDrugConditionPair` and `calculateGenericScore`

Embedded from the `aiService` module.  The JS function builds a mutable
`analysis` record and runs one block per recognized drug, each block
further refining the score when the condition also matches; the blocks are
embedded as one function per drug, applied in source order. -/

/-- The `analysis` record of `analyzeDrugConditionPair`. -/
structure Analysis where
  knownRepurposing : Bool
  evidenceLevel : String
  score : Nat
  mechanisms : List String
  safetyProfile : String
  regulatoryStatus : String
deriving DecidableEq, Repr

/-- The initial `analysis` value of `analyzeDrugConditionPair`. -/
def initialAnalysis : Analysis :=
  { knownRepurposing := false
    evidenceLevel := "moderate"
    score := 65
    mechanisms := []
    safetyProfile := "unknown"
    regulatoryStatus := "investigational" }

/-- `calculateGenericScore(drugLower, conditionLower)`: base score 50 plus
keyword bonuses, clamped by `Math.min(85, Math.max(45, score))`. -/
def calculateGenericScore (drugLower conditionLower : String) : Nat :=
  let score := 50
  let score := if strIncludes drugLower "approved" || strIncludes drugLower "fda" then
    score + 10 else score
  let score := if strIncludes drugLower "generic" || strIncludes drugLower "off-patent" then
    score + 5 else score
  let score := if strIncludes drugLower "safe" || strIncludes drugLower "well-tolerated" then
    score + 8 else score
  let score := if strIncludes conditionLower "rare" || strIncludes conditionLower "orphan" then
    score + 15 else score
  let score := if strIncludes conditionLower "unmet" || strIncludes conditionLower "need" then
    score + 10 else score
  let score := if strIncludes conditionLower "chronic" then score + 5 else score
  let score := if strIncludes drugLower "anti-inflammatory" &&
      strIncludes conditionLower "inflammatory" then score + 15 else score
  let score := if strIncludes drugLower "antioxidant" &&
      strIncludes conditionLower "oxidative" then score + 12 else score
  min 85 (max 45 score)

/-- The metformin block of `analyzeDrugConditionPair`. -/
def metforminStep (drugLower conditionLower : String) (a : Analysis) : Analysis :=
  if strIncludes drugLower "metformin" then
    let a := { a with knownRepurposing := true, safetyProfile := "excellent" }
    if strIncludes conditionLower "cancer" || strIncludes conditionLower "oncology" ||
        strIncludes conditionLower "tumor" || strIncludes conditionLower "carcinoma" then
      { a with evidenceLevel := "strong", score := 89
               mechanisms := ["AMPK activation", "mTOR inhibition", "Cancer stem cell targeting"]
               regulatoryStatus := "Phase II trials ongoing" }
    else if strIncludes conditionLower "pcos" || strIncludes conditionLower "polycystic" then
      { a with evidenceLevel := "very strong", score := 95
               mechanisms := ["Insulin sensitization", "Androgen reduction", "Ovulation restoration"]
               regulatoryStatus := "FDA approved (off-label)" }
    else if strIncludes conditionLower "diabetes" || strIncludes conditionLower "diabetic" then
      { a with evidenceLevel := "very strong", score := 98
               mechanisms := ["Hepatic glucose production reduction", "Peripheral glucose uptake"]
               regulatoryStatus := "FDA approved (primary indication)" }
    else a
  else a

/-- The aspirin block of `analyzeDrugConditionPair`. -/
def aspirinStep (drugLower conditionLower : String) (a : Analysis) : Analysis :=
  if strIncludes drugLower "aspirin" || strIncludes drugLower "acetylsalicylic" then
    let a := { a with knownRepurposing := true, safetyProfile := "good" }
    if strIncludes conditionLower "cardiovascular" || strIncludes conditionLower "heart" ||
        strIncludes conditionLower "stroke" || strIncludes conditionLower "cardiac" ||
        strIncludes conditionLower "cvd" then
      { a with evidenceLevel := "very strong", score := 92
               mechanisms := ["Platelet aggregation inhibition", "COX-1 inhibition", "Anti-inflammatory"]
               regulatoryStatus := "FDA approved" }
    else if strIncludes conditionLower "cancer" || strIncludes conditionLower "colorectal" then
      { a with evidenceLevel := "moderate", score := 75
               mechanisms := ["COX-2 inhibition", "Anti-inflammatory", "Apoptosis induction"]
               regulatoryStatus := "Investigational" }
    else a
  else a

/-- The sildenafil block of `analyzeDrugConditionPair`. -/
def sildenafilStep (drugLower conditionLower : String) (a : Analysis) : Analysis :=
  if strIncludes drugLower "sildenafil" || strIncludes drugLower "viagra" then
    let a := { a with knownRepurposing := true, safetyProfile := "good" }
    if strIncludes conditionLower "pulmonary" &&
        (strIncludes conditionLower "hypertension" || strIncludes conditionLower "pah") then
      { a with evidenceLevel := "very strong", score := 93
               mechanisms := ["PDE-5 inhibition", "Vasodilation", "Pulmonary vascular resistance reduction"]
               regulatoryStatus := "FDA approved (Revatio)" }
    else a
  else a

/-- The thalidomide block of `analyzeDrugConditionPair`. -/
def thalidomideStep (drugLower conditionLower : String) (a : Analysis) : Analysis :=
  if strIncludes drugLower "thalidomide" then
    let a := { a with knownRepurposing := true, safetyProfile := "requires REMS" }
    if strIncludes conditionLower "myeloma" ||
        (strIncludes conditionLower "multiple" && strIncludes conditionLower "myeloma") then
      { a with evidenceLevel := "very strong", score := 88
               mechanisms := ["Angiogenesis inhibition", "Immunomodulation", "Tumor cell cytotoxicity"]
               regulatoryStatus := "FDA approved (Thalomid, REMS)" }
    else a
  else a

/-- The zinc block of `analyzeDrugConditionPair`. -/
def zincStep (drugLower conditionLower : String) (a : Analysis) : Analysis :=
  if strIncludes drugLower "zinc" then
    let a := { a with knownRepurposing := true, safetyProfile := "excellent" }
    if strIncludes conditionLower "diarrhea" || strIncludes conditionLower "ors" ||
        strIncludes conditionLower "dehydration" || strIncludes conditionLower "gastroenteritis" then
      { a with evidenceLevel := "very strong", score := 91
               mechanisms := ["Immune function enhancement", "Intestinal barrier repair", "Antimicrobial activity"]
               regulatoryStatus := "WHO/UNICEF recommended" }
    else a
  else a

/-- The closing `if (!analysis.knownRepurposing)` block of
`analyzeDrugConditionPair`: generic analysis for unknown pairs. -/
def genericStep (drugLower conditionLower : String) (a : Analysis) : Analysis :=
  if !a.knownRepurposing then
    { a with evidenceLevel := "preliminary"
             score := calculateGenericScore drugLower conditionLower
             mechanisms := ["Mechanism to be determined"]
             regulatoryStatus := "Preclinical investigation needed" }
  else a

/-- `analyzeDrugConditionPair(drugLower, conditionLower)`: the drug blocks in
source order, then the generic block. -/
def analyzeDrugConditionPair (drugLower conditionLower : String) : Analysis :=
  genericStep drugLower conditionLower
    (zincStep drugLower conditionLower
      (thalidomideStep drugLower conditionLower
        (sildenafilStep drugLower conditionLower
          (aspirinStep drugLower conditionLower
            (metforminStep drugLower conditionLower initialAnalysis)))))


/-! ## aiService: report generators

The generators call `Math.random()`; the embedding threads an explicit
random source `rng : Nat → Nat → Nat`, where `rng k n` stands for the
result of the k-th `Math.floor(Math.random() * n)` drawn by the helper
(and `rng k 2` for the k-th boolean draw `Math.random() > 0.5`).  A faithful
stream satisfies `rng k n < n`; none of the theorems below need that bound.
`generateWithIntelligentFallback` hands each helper its own slice of the
stream.  `Date.getFullYear()` in `generatePatents` is the explicit
`currentYear` argument. -/

/-- One entry of `researchPapers`. -/
structure ResearchPaper where
  title : String
  authors : String
  journal : String
  year : Nat
  relevance : Nat
  summary : String
deriving DecidableEq, Repr

/-- One entry of `clinicalTrials`. -/
structure ClinicalTrial where
  id : String
  title : String
  status : String
  phase : String
  participants : Nat
  completionDate : String
deriving DecidableEq, Repr

/-- One entry of `patents`. -/
structure Patent where
  number : String
  title : String
  status : String
  filingDate : String
  assignee : String
deriving DecidableEq, Repr

/-- The `marketFeasibility` object. -/
structure MarketFeasibility where
  marketSize : String
  growthRate : String
  competition : String
  regulatoryPath : String
  timeline : String
deriving DecidableEq, Repr

/-- The analysis payload shared by the aiService fallback and the
`getMedicallyAccurateData` mock data of `App`. -/
structure MedicalData where
  researchPapers : List ResearchPaper
  clinicalTrials : List ClinicalTrial
  patents : List Patent
  marketFeasibility : MarketFeasibility
  repurposeabilityScore : Nat
  recommendations : List String
deriving DecidableEq, Repr

/-- JS `s.padStart(n, c)`. -/
def jsPadStart (n : Nat) (c : Char) (s : String) : String :=
  String.mk (List.replicate (n - s.length) c) ++ s

/-- `generateAuthorNames()`, with its two random draws explicit. -/
def generateAuthorNames (d1 d2 : Nat) : String :=
  let firstNames := ["Smith", "Johnson", "Williams", "Brown", "Jones", "Garcia", "Miller", "Davis"]
  let lastNames := ["et al.", "Research Group", "Collaborative Study Group"]
  (firstNames.getD d1 "") ++ " " ++ (lastNames.getD d2 "")

/-- `generateResearchPapers(drugName, targetCondition, analysis)`. -/
def generateResearchPapers (rng : Nat → Nat → Nat)
    (drugName targetCondition : String) (analysis : Analysis) : List ResearchPaper :=
  let journals := ["Nature Medicine", "The Lancet", "New England Journal of Medicine", "JAMA",
    "Cancer Prevention Research", "Cell Cycle", "Oncology", "Blood",
    "Human Reproduction Update", "Cochrane Database of Systematic Reviews",
    "Nature Reviews Drug Discovery", "Briefings in Bioinformatics"]
  if analysis.knownRepurposing && analysis.evidenceLevel == "very strong" then
    [{ title := drugName ++ " for Treatment of " ++ targetCondition ++
        ": A Systematic Review and Meta-analysis"
       authors := generateAuthorNames (rng 0 8) (rng 1 3)
       journal := journals.getD (rng 2 12) ""
       year := 2023 + rng 3 2
       relevance := 90 + rng 4 8
       summary := "Comprehensive meta-analysis demonstrating " ++ drugName ++
        "'s efficacy in " ++ targetCondition ++ " through " ++
        analysis.mechanisms.headD "multiple mechanisms" ++
        ". Strong clinical evidence supports repurposing with " ++
        analysis.safetyProfile ++ " safety profile." },
     { title := "Mechanisms of Action of " ++ drugName ++ " in " ++ targetCondition ++
        ": Preclinical and Clinical Evidence"
       authors := generateAuthorNames (rng 5 8) (rng 6 3)
       journal := journals.getD (rng 7 12) ""
       year := 2022 + rng 8 3
       relevance := 85 + rng 9 10
       summary := "Mechanistic study elucidating " ++ drugName ++ "'s effects in " ++
        targetCondition ++ ", highlighting " ++
        String.intercalate ", " analysis.mechanisms ++
        ". Preclinical models and early clinical data support therapeutic potential." }]
  else
    [{ title := "Drug Repurposing: " ++ drugName ++ " for " ++ targetCondition ++
        " - Opportunities and Challenges"
       authors := generateAuthorNames (rng 0 8) (rng 1 3)
       journal := "Nature Reviews Drug Discovery"
       year := 2023
       relevance := 75 + rng 2 10
       summary := "Preliminary assessment of " ++ drugName ++
        " repurposing potential for " ++ targetCondition ++
        ". Comprehensive literature review and preclinical studies recommended to evaluate therapeutic potential and safety profile." }]

/-- `generateClinicalTrials(drugName, targetCondition, analysis)`. -/
def generateClinicalTrials (rng : Nat → Nat → Nat)
    (drugName targetCondition : String) (analysis : Analysis) : List ClinicalTrial :=
  if analysis.knownRepurposing && !(analysis.evidenceLevel == "preliminary") then
    let phases := ["Phase 1", "Phase 2", "Phase 3"]
    let statuses := ["Recruiting", "Active, not recruiting", "Completed", "Enrolling by invitation"]
    [{ id := "NCT" ++ jsPadStart 8 '0' (toString (rng 0 100000000))
       title := drugName ++ " for Treatment of " ++ targetCondition
       status := statuses.getD (rng 1 4) ""
       phase := phases.getD (rng 2 3) ""
       participants := [50, 100, 150, 200, 300, 500].getD (rng 3 6) 0
       completionDate := toString (2024 + rng 4 3) ++ "-" ++
        jsPadStart 2 '0' (toString (rng 5 12 + 1)) }]
  else
    [{ id := "NCT" ++ jsPadStart 8 '0' (toString (rng 0 100000000))
       title := "Phase II Study: " ++ drugName ++ " for " ++ targetCondition
       status := "Not yet recruiting"
       phase := "Phase 2"
       participants := 100
       completionDate := "2026-12" }]

/-- `generatePatents(drugName, targetCondition, analysis)`. -/
def generatePatents (rng : Nat → Nat → Nat) (currentYear : Nat)
    (drugName targetCondition : String) (analysis : Analysis) : List Patent :=
  let assignees := ["University Research Institution", "Pharmaceutical Company",
    "Biotech Corporation", "Medical Research Foundation"]
  if analysis.knownRepurposing then
    [{ number := "US" ++ toString currentYear ++
        jsPadStart 6 '0' (toString (rng 0 100000)) ++ "A1"
       title := drugName ++ " Compositions for Treatment of " ++ targetCondition
       status := if rng 1 2 = 1 then "Granted" else "Pending"
       filingDate := toString (2020 + rng 2 4) ++ "-" ++
        jsPadStart 2 '0' (toString (rng 3 12 + 1)) ++ "-" ++
        jsPadStart 2 '0' (toString (rng 4 28 + 1))
       assignee := assignees.getD (rng 5 4) "" }]
  else
    []

/-- `generateMarketFeasibility(analysis)`. -/
def generateMarketFeasibility (rng : Nat → Nat → Nat)
    (analysis : Analysis) : MarketFeasibility :=
  let marketSizes := ["$500M", "$1.2B", "$2.5B", "$4.2B", "$850M", "$3.1B"]
  let growthRates := ["4.1% CAGR", "6.2% CAGR", "8.3% CAGR", "9.4% CAGR", "12.5% CAGR"]
  let competitions := ["Low", "Moderate", "High", "Low-Moderate", "Moderate-High"]
  { marketSize := marketSizes.getD (rng 0 6) ""
    growthRate := growthRates.getD (rng 1 5) ""
    competition := competitions.getD (rng 2 5) ""
    regulatoryPath := analysis.regulatoryStatus
    timeline := if analysis.knownRepurposing then "18-36 months" else "36-48 months" }

/-- `generateRecommendations(drugName, targetCondition, analysis)`. -/
def generateRecommendations (drugName targetCondition : String)
    (analysis : Analysis) : List String :=
  (if analysis.knownRepurposing then
    [drugName ++ " shows " ++ analysis.evidenceLevel ++ " evidence for repurposing in " ++
      targetCondition,
     "Mechanisms of action include: " ++ String.intercalate ", " analysis.mechanisms,
     "Safety profile: " ++ analysis.safetyProfile,
     "Regulatory status: " ++ analysis.regulatoryStatus]
  else
    ["Preliminary assessment suggests potential for repurposing",
     "Comprehensive literature review and preclinical studies recommended",
     "Patent landscape analysis required to assess freedom to operate",
     "Market feasibility study needed to evaluate commercial viability"]) ++
  ["Regulatory pathway consultation recommended before proceeding",
   "Consider combination therapy approaches for enhanced efficacy"]

/-- `generateWithIntelligentFallback(drugName, targetCondition)`: lowercase
and trim both inputs, analyze the pair, then assemble the report (the
simulated processing delay has no effect on the result).  Helpers receive
disjoint slices of the random stream. -/
def generateWithIntelligentFallback (rng : Nat → Nat → Nat) (currentYear : Nat)
    (drugName targetCondition : String) : MedicalData :=
  let drugLower := jsTrim (jsToLowerCase drugName)
  let conditionLower := jsTrim (jsToLowerCase targetCondition)
  let analysis := analyzeDrugConditionPair drugLower conditionLower
  { researchPapers := generateResearchPapers (fun k n => rng k n) drugName targetCondition analysis
    clinicalTrials := generateClinicalTrials (fun k n => rng (20 + k) n) drugName targetCondition analysis
    patents := generatePatents (fun k n => rng (40 + k) n) currentYear drugName targetCondition analysis
    marketFeasibility := generateMarketFeasibility (fun k n => rng (60 + k) n) analysis
    repurposeabilityScore := analysis.score
    recommendations := generateRecommendations drugName targetCondition analysis }


/-! ## App: `getMedicallyAccurateData`

The mock-data fallback of `App`.  The JS function lowercases both inputs and
returns from inside nested `if` blocks; the early returns are flattened into
one `if`/`else if` chain with the same guards in source order (a drug block
whose inner condition checks all fail falls through to the next block, as in
the source). -/

/-- `getMedicallyAccurateData(drugName, targetCondition)` of `App`. -/
def getMedicallyAccurateData (drugName targetCondition : String) : MedicalData :=
  let drugLower := jsToLowerCase drugName
  let conditionLower := jsToLowerCase targetCondition
  if strIncludes drugLower "metformin" &&
      (strIncludes conditionLower "cancer" || strIncludes conditionLower "oncology" ||
       strIncludes conditionLower "tumor" || strIncludes conditionLower "carcinoma" ||
       strIncludes conditionLower "malignancy") then
    { researchPapers :=
        [{ title := "Metformin and Reduced Risk of Cancer in Diabetic Patients: A Systematic Review and Meta-analysis"
           authors := "Decensi A, Puntoni M, Goodwin P, et al."
           journal := "Cancer Prevention Research"
           year := 2023
           relevance := 94
           summary := "Meta-analysis of 47 studies showing metformin's anti-cancer effects through AMPK activation and mTOR pathway inhibition. Evidence supports repurposing for breast, colorectal, and prostate cancer prevention and treatment." },
         { title := "Metformin as an Anticancer Agent: Actions and Mechanisms Targeting Cancer Stem Cells"
           authors := "Wheaton WW, Weinberg SE, Hamanaka RB, et al."
           journal := "Cell Cycle"
           year := 2024
           relevance := 91
           summary := "Mechanistic study demonstrating metformin's ability to target cancer stem cells via mitochondrial complex I inhibition, reducing tumor recurrence and metastasis in preclinical models." },
         { title := "Clinical Trials of Metformin in Cancer Therapy: Current Status and Future Directions"
           authors := "Kourelis TV, Siegel RD"
           journal := "Oncology"
           year := 2023
           relevance := 88
           summary := "Review of 23 active clinical trials investigating metformin as adjuvant therapy in various cancers, with promising Phase II results in breast and pancreatic cancer." }]
      clinicalTrials :=
        [{ id := "NCT04837209"
           title := "Metformin Hydrochloride in Treating Patients With Stage I-III Breast Cancer"
           status := "Recruiting", phase := "Phase 2"
           participants := 200, completionDate := "2025-12" },
         { id := "NCT03151772"
           title := "Metformin in Advanced Pancreatic Cancer"
           status := "Active, not recruiting", phase := "Phase 2"
           participants := 120, completionDate := "2024-08" }]
      patents :=
        [{ number := "US20230158421A1"
           title := "Metformin Compositions for Cancer Treatment and Prevention"
           status := "Pending", filingDate := "2023-05-10"
           assignee := "University of Texas System" },
         { number := "EP3243521B1"
           title := "Use of Metformin in Combination Therapy for Cancer"
           status := "Granted", filingDate := "2016-11-15"
           assignee := "Institut National de la Santé et de la Recherche Médicale" }]
      marketFeasibility :=
        { marketSize := "$4.2B", growthRate := "8.3% CAGR", competition := "Low-Moderate"
          regulatoryPath := "FDA 505(b)(2) Pathway Eligible", timeline := "24-36 months" }
      repurposeabilityScore := 89
      recommendations :=
        ["Strong preclinical and epidemiological evidence supports metformin's anti-cancer effects",
         "Multiple Phase II trials showing promising results with favorable safety profile",
         "Patent landscape shows opportunities for combination therapies and novel formulations",
         "Market opportunity significant given metformin's low cost and established safety",
         "Regulatory pathway expedited through 505(b)(2) application leveraging existing safety data"] }
  else if strIncludes drugLower "metformin" &&
      (strIncludes conditionLower "pcos" || strIncludes conditionLower "polycystic") then
    { researchPapers :=
        [{ title := "Metformin for Treatment of Polycystic Ovary Syndrome: A Systematic Review and Meta-analysis"
           authors := "Lord JM, Flight IH, Norman RJ"
           journal := "Human Reproduction Update"
           year := 2023
           relevance := 96
           summary := "Comprehensive meta-analysis of 31 RCTs demonstrating metformin's efficacy in improving insulin sensitivity, reducing androgen levels, and restoring ovulation in PCOS patients." },
         { title := "Metformin in Polycystic Ovary Syndrome: Systematic Review and Meta-analysis"
           authors := "Palomba S, Falbo A, Zullo F, Orio F"
           journal := "Obstetrical & Gynecological Survey"
           year := 2023
           relevance := 92
           summary := "Evidence-based review confirming metformin as first-line treatment for PCOS-related insulin resistance and anovulation, with particular benefit in obese patients." }]
      clinicalTrials :=
        [{ id := "NCT04196569"
           title := "Metformin for PCOS: Long-term Cardiovascular Outcomes"
           status := "Recruiting", phase := "Phase 3"
           participants := 500, completionDate := "2026-03" }]
      patents :=
        [{ number := "US20180243156A1"
           title := "Extended-Release Metformin Formulation for PCOS Treatment"
           status := "Granted", filingDate := "2017-08-30"
           assignee := "Bristol-Myers Squibb Company" }]
      marketFeasibility :=
        { marketSize := "$1.8B", growthRate := "6.2% CAGR", competition := "Low"
          regulatoryPath := "FDA Approved (Off-label use)", timeline := "Immediate (Off-label)" }
      repurposeabilityScore := 95
      recommendations :=
        ["Metformin is already FDA-approved and widely used off-label for PCOS",
         "Strong clinical evidence from multiple meta-analyses supports efficacy",
         "Established safety profile with decades of use in diabetes",
         "Cost-effective treatment option with minimal side effects",
         "Consider extended-release formulation for improved patient compliance"] }
  else if (strIncludes drugLower "aspirin" || strIncludes drugLower "acetylsalicylic") &&
      (strIncludes conditionLower "cardiovascular" || strIncludes conditionLower "heart" ||
       strIncludes conditionLower "stroke" || strIncludes conditionLower "cardiac" ||
       strIncludes conditionLower "cvd") then
    { researchPapers :=
        [{ title := "Aspirin for Primary Prevention of Cardiovascular Disease: Updated Evidence Report and Systematic Review"
           authors := "US Preventive Services Task Force"
           journal := "JAMA"
           year := 2022
           relevance := 98
           summary := "Comprehensive systematic review of aspirin's role in primary prevention of cardiovascular events, showing benefit in high-risk patients aged 40-59 years." },
         { title := "Aspirin in the Primary and Secondary Prevention of Vascular Disease: Collaborative Meta-analysis"
           authors := "Antithrombotic Trialists' Collaboration"
           journal := "The Lancet"
           year := 2023
           relevance := 95
           summary := "Meta-analysis of 16 trials involving 17,000 patients demonstrating aspirin's efficacy in reducing serious vascular events by 20% in secondary prevention." }]
      clinicalTrials :=
        [{ id := "NCT03506997"
           title := "Aspirin in Reducing Events in the Elderly (ASPREE)"
           status := "Completed", phase := "Phase 3"
           participants := 19114, completionDate := "2023-06" }]
      patents :=
        [{ number := "US20150086545A1"
           title := "Enteric-Coated Aspirin Formulation for Cardiovascular Prevention"
           status := "Granted", filingDate := "2014-03-25"
           assignee := "Bayer Healthcare LLC" }]
      marketFeasibility :=
        { marketSize := "$3.1B", growthRate := "4.1% CAGR", competition := "High"
          regulatoryPath := "FDA Approved (Multiple indications)", timeline := "Immediate (Approved)" }
      repurposeabilityScore := 92
      recommendations :=
        ["Aspirin is already FDA-approved for cardiovascular prevention",
         "Extensive clinical evidence from landmark trials supports use",
         "Low-cost generic availability makes it highly accessible",
         "Consider patient selection criteria (age, bleeding risk) for optimal benefit-risk ratio",
         "Enteric-coated formulations reduce gastrointestinal side effects"] }
  else if (strIncludes drugLower "sildenafil" || strIncludes drugLower "viagra") &&
      (strIncludes conditionLower "pulmonary" || strIncludes conditionLower "hypertension" ||
       strIncludes conditionLower "pah" ||
       (strIncludes conditionLower "pulmonary" && strIncludes conditionLower "arterial")) then
    { researchPapers :=
        [{ title := "Sildenafil for Treatment of Pulmonary Arterial Hypertension: A Systematic Review"
           authors := "Galiè N, Ghofrani HA, Torbicki A, et al."
           journal := "New England Journal of Medicine"
           year := 2023
           relevance := 97
           summary := "Landmark study demonstrating sildenafil's efficacy in pulmonary arterial hypertension through PDE-5 inhibition, improving exercise capacity and hemodynamics." },
         { title := "Long-term Treatment with Sildenafil in Pulmonary Arterial Hypertension"
           authors := "Galiè N, Brundage BH, Ghofrani HA, et al."
           journal := "Circulation"
           year := 2024
           relevance := 94
           summary := "Five-year follow-up study showing sustained improvement in functional class and survival in PAH patients treated with sildenafil." }]
      clinicalTrials :=
        [{ id := "NCT00159861"
           title := "Sildenafil in Pulmonary Arterial Hypertension (SUPER-1)"
           status := "Completed", phase := "Phase 3"
           participants := 278, completionDate := "2022-09" }]
      patents :=
        [{ number := "USRE47550E"
           title := "Use of Sildenafil for Treatment of Pulmonary Hypertension"
           status := "Granted", filingDate := "2010-11-15"
           assignee := "Pfizer Inc." }]
      marketFeasibility :=
        { marketSize := "$1.2B", growthRate := "5.8% CAGR", competition := "Moderate"
          regulatoryPath := "FDA Approved (Revatio brand)", timeline := "Immediate (Approved)" }
      repurposeabilityScore := 93
      recommendations :=
        ["Sildenafil is FDA-approved for PAH under brand name Revatio",
         "Strong clinical evidence from Phase III trials supports efficacy",
         "Different dosing required for PAH (20mg TID) vs erectile dysfunction",
         "Patent protection expired, generic formulations available",
         "Consider combination therapy with other PAH medications for enhanced efficacy"] }
  else if strIncludes drugLower "thalidomide" &&
      (strIncludes conditionLower "myeloma" ||
       (strIncludes conditionLower "multiple" && strIncludes conditionLower "myeloma")) then
    { researchPapers :=
        [{ title := "Thalidomide in Multiple Myeloma: A Systematic Review and Meta-analysis"
           authors := "Singhal S, Mehta J, Desikan R, et al."
           journal := "New England Journal of Medicine"
           year := 2023
           relevance := 96
           summary := "Pivotal study demonstrating thalidomide's efficacy in relapsed/refractory multiple myeloma, leading to FDA approval and establishing immunomodulatory drugs as standard of care." },
         { title := "Mechanisms of Action of Thalidomide in Multiple Myeloma"
           authors := "Hideshima T, Chauhan D, Shima Y, et al."
           journal := "Blood"
           year := 2024
           relevance := 91
           summary := "Mechanistic study elucidating thalidomide's anti-myeloma effects through inhibition of angiogenesis, immunomodulation, and direct tumor cell cytotoxicity." }]
      clinicalTrials :=
        [{ id := "NCT00016432"
           title := "Thalidomide in Multiple Myeloma"
           status := "Completed", phase := "Phase 3"
           participants := 470, completionDate := "2023-05" }]
      patents :=
        [{ number := "US20030144258A1"
           title := "Thalidomide for Treatment of Multiple Myeloma"
           status := "Granted", filingDate := "2002-07-18"
           assignee := "Celgene Corporation" }]
      marketFeasibility :=
        { marketSize := "$2.8B", growthRate := "7.2% CAGR", competition := "Moderate-High"
          regulatoryPath := "FDA Approved (Thalomid) with REMS program", timeline := "Immediate (Approved)" }
      repurposeabilityScore := 88
      recommendations :=
        ["Thalidomide is FDA-approved for multiple myeloma under strict REMS program",
         "Significant teratogenic risk requires comprehensive risk mitigation",
         "Strong efficacy data but requires careful patient selection and monitoring",
         "Consider newer IMiDs (lenalidomide, pomalidomide) with improved safety profiles",
         "Patent protection expired, generic versions available with REMS compliance"] }
  else if strIncludes drugLower "zinc" &&
      (strIncludes conditionLower "diarrhea" || strIncludes conditionLower "ors" ||
       strIncludes conditionLower "dehydration") then
    { researchPapers :=
        [{ title := "Zinc Supplementation in the Management of Diarrhea: A Systematic Review and Meta-analysis"
           authors := "Lazzerini M, Wanzira H"
           journal := "Cochrane Database of Systematic Reviews"
           year := 2023
           relevance := 97
           summary := "Meta-analysis of 33 trials showing zinc supplementation reduces duration and severity of acute diarrhea in children, particularly in developing countries. WHO recommends zinc as adjunct to ORS." },
         { title := "Zinc for the Treatment of Diarrhea: Effect on Diarrhea Morbidity, Mortality, and Incidence of Future Episodes"
           authors := "Walker CLF, Black RE"
           journal := "International Journal of Epidemiology"
           year := 2023
           relevance := 94
           summary := "Comprehensive review demonstrating zinc's role in reducing diarrhea duration by 25% and preventing future episodes, supporting WHO/UNICEF recommendations for zinc-ORS co-administration." }]
      clinicalTrials :=
        [{ id := "NCT00345605"
           title := "Zinc Supplementation in Acute Diarrhea"
           status := "Completed", phase := "Phase 3"
           participants := 1200, completionDate := "2023-12" }]
      patents :=
        [{ number := "US20160143983A1"
           title := "Zinc-Containing Oral Rehydration Solution Formulation"
           status := "Granted", filingDate := "2015-05-28"
           assignee := "Reckitt Benckiser Healthcare (UK) Limited" }]
      marketFeasibility :=
        { marketSize := "$850M", growthRate := "9.4% CAGR", competition := "Moderate"
          regulatoryPath := "FDA Approved (Dietary supplement)", timeline := "Immediate (Approved)" }
      repurposeabilityScore := 91
      recommendations :=
        ["Zinc is WHO/UNICEF recommended as adjunct to ORS for diarrhea treatment",
         "Strong clinical evidence from multiple RCTs supports efficacy in pediatric populations",
         "Low cost and excellent safety profile make it highly accessible",
         "Consider combination formulations with ORS for improved compliance",
         "Particularly effective in zinc-deficient populations and developing countries"] }
  else
    { researchPapers :=
        [{ title := "Drug Repurposing: Opportunities and Challenges in Pharmaceutical Development"
           authors := "Pushpakom S, Iorio F, Eyers PA, et al."
           journal := "Nature Reviews Drug Discovery"
           year := 2023
           relevance := 85
           summary := "Comprehensive review of drug repurposing strategies, highlighting successful examples and methodological approaches for identifying new therapeutic indications for existing drugs." },
         { title := "Systematic Drug Repurposing: A Focus on Drug-Disease Associations"
           authors := "Jarada TN, Rokne JG, Alhajj R"
           journal := "Briefings in Bioinformatics"
           year := 2023
           relevance := 82
           summary := "Computational approach to drug repurposing using network-based analysis of drug-disease associations, demonstrating potential for identifying novel therapeutic applications." }]
      clinicalTrials :=
        [{ id := "NCT00000000"
           title := "Phase II Study: " ++ drugName ++ " for " ++ targetCondition
           status := "Not yet recruiting", phase := "Phase 2"
           participants := 100, completionDate := "2026-12" }]
      patents :=
        [{ number := "US20240000000A1"
           title := "Novel Use of " ++ drugName ++ " for Treatment of " ++ targetCondition
           status := "Pending", filingDate := "2024-01-01"
           assignee := "Research Institution" }]
      marketFeasibility :=
        { marketSize := "To be determined", growthRate := "Market analysis required"
          competition := "Assessment needed", regulatoryPath := "FDA IND required"
          timeline := "36-48 months" }
      repurposeabilityScore := 65
      recommendations :=
        ["Preliminary assessment suggests potential for repurposing",
         "Comprehensive literature review and preclinical studies recommended",
         "Patent landscape analysis required to assess freedom to operate",
         "Market feasibility study needed to evaluate commercial viability",
         "Regulatory pathway consultation recommended before proceeding"] }

/-! ## App: `handleSearch`

`handleSearch` posts the query to the backend; on any error it falls back to
`getMedicallyAccurateData`.  The embedding abstracts the network call as an
`Option`-valued outcome: `some apiData` is a successful `/api/analyze`
response, `none` is any thrown error (network failure or non-ok status). -/

/-- The query object dispatched by `SearchInterface`. -/
structure Query where
  drugName : String
  targetCondition : String
deriving DecidableEq, Repr

/-- The snake_case payload of a successful `/api/analyze` response, with
exactly the fields `handleSearch` reads. -/
structure ApiPaper where
  title : String
  authors : String
  journal : String
  year : Nat
  relevance : Nat
  summary : String
deriving DecidableEq, Repr

/-- A clinical-trial entry of the API response. -/
structure ApiTrial where
  id : String
  title : String
  status : String
  phase : String
  participants : Nat
  completion_date : String
deriving DecidableEq, Repr

/-- A patent entry of the API response. -/
structure ApiPatent where
  number : String
  title : String
  status : String
  filing_date : String
  assignee : String
deriving DecidableEq, Repr

/-- The market-feasibility object of the API response. -/
structure ApiMarketFeasibility where
  market_size : String
  growth_rate : String
  competition : String
  regulatory_path : String
  timeline : String
deriving DecidableEq, Repr

/-- The `/api/analyze` response body. -/
structure ApiData where
  drug_name : String
  target_condition : String
  research_papers : List ApiPaper
  clinical_trials : List ApiTrial
  patents : List ApiPatent
  market_feasibility : ApiMarketFeasibility
  repurposeability_score : Nat
  recommendations : List String
deriving DecidableEq, Repr

/-- The report state set by `setReportData`. -/
structure Report where
  drugName : String
  targetCondition : String
  data : MedicalData
deriving DecidableEq, Repr

/-- The field-by-field transformation `handleSearch` applies to a successful
API response. -/
def transformApiData (apiData : ApiData) : Report :=
  { drugName := apiData.drug_name
    targetCondition := apiData.target_condition
    data :=
      { researchPapers := apiData.research_papers.map fun paper =>
          { title := paper.title, authors := paper.authors, journal := paper.journal
            year := paper.year, relevance := paper.relevance, summary := paper.summary }
        clinicalTrials := apiData.clinical_trials.map fun trial =>
          { id := trial.id, title := trial.title, status := trial.status
            phase := trial.phase, participants := trial.participants
            completionDate := trial.completion_date }
        patents := apiData.patents.map fun patent =>
          { number := patent.number, title := patent.title, status := patent.status
            filingDate := patent.filing_date, assignee := patent.assignee }
        marketFeasibility :=
          { marketSize := apiData.market_feasibility.market_size
            growthRate := apiData.market_feasibility.growth_rate
            competition := apiData.market_feasibility.competition
            regulatoryPath := apiData.market_feasibility.regulatory_path
            timeline := apiData.market_feasibility.timeline }
        repurposeabilityScore := apiData.repurposeability_score
        recommendations := apiData.recommendations } }

/-- `handleSearch(query)`: use the backend response when the call succeeds,
otherwise fall back to the locally generated static data.  Always produces a
report. -/
def handleSearch (remote : Option ApiData) (query : Query) : Report :=
  match remote with
  | some apiData => transformApiData apiData
  | none =>
      let medicalData := getMedicallyAccurateData query.drugName query.targetCondition
      { drugName := query.drugName
        targetCondition := query.targetCondition
        data := medicalData }

/-! ## SearchInterface: `handleSubmit`

`handleSubmit` calls `onSearch` only when both trimmed fields are truthy
(non-empty); the dispatched query carries the trimmed values.  The embedding
returns the query passed to `onSearch`, or `none` when no search is
dispatched. -/

/-- `handleSubmit` of `SearchInterface`. -/
def handleSubmit (drugName targetCondition : String) : Option Query :=
  if jsTrim drugName ≠ "" ∧ jsTrim targetCondition ≠ "" then
    some { drugName := jsTrim drugName, targetCondition := jsTrim targetCondition }
  else
    none

/-- `getScoreColor` of `RepurposeabilityReport`: the 3-tier color scale the
UI applies to the repurposeability score. -/
def getScoreColor (score : Nat) : String :=
  if score ≥ 80 then "text-green-600 bg-green-100"
  else if score ≥ 60 then "text-yellow-600 bg-yellow-100"
  else "text-red-600 bg-red-100"

/-! ## Spec-modelled orchestration pipeline

The case classifier, agent outcomes, scoring engine and decision engine are
implemented by the Python backend, whose code is not among the repository's
files (only its documentation is).  The definitions below are modelled from
the design document and marked as such. -/

/-- Modelled from the spec: the evidence-collection agent kinds (the five
domain agents plus the trend-scan agent). -/
inductive AgentKind where
  | literature
  | trials
  | patents
  | regulatory
  | market
  | trendScan
deriving DecidableEq, Repr

/-- Modelled from the spec: which request fields are present. -/
inductive PresenceMode where
  | BOTH
  | DRUG_ONLY
  | CONDITION_ONLY
  | NEITHER
deriving DecidableEq, Repr

/-- Modelled from the spec: whether the drug/condition are recognized
entities in the reference collaborator. -/
inductive Knownness where
  | KNOWN_REPURPOSING
  | LIKELY_REPURPOSING
  | EXPLORATORY
  | NOVEL
deriving DecidableEq, Repr

/-- Modelled from the spec: an incoming request; both fields optional, an
absent field is the empty string. -/
structure Request where
  drugName : String
  conditionName : String
deriving DecidableEq, Repr

/-- Modelled from the spec: the result of the bounded reference-collaborator
lookup the classifier performs; a failed or timed-out lookup reports
`false` (the entity is treated as unfamiliar). -/
structure RefLookup where
  drugKnown : Bool
  conditionKnown : Bool
  conditionCommon : Bool
deriving DecidableEq, Repr

/-- Modelled from the spec: the classification of a request. -/
structure Case where
  presenceMode : PresenceMode
  knownness : Knownness
  priority : Nat
  selectedAgents : List AgentKind
deriving DecidableEq, Repr

/-- Modelled from the spec: `classify(request) -> Case`, pure and total.
`presenceMode` is derived purely from which request fields are non-empty;
`knownness`/`priority` from the reference lookup; `selectedAgents` is a pure
function of `presenceMode` (`NEITHER` routes only to the trend-scanning
agent, every other mode to the five domain agents). -/
def classify (request : Request) (ref : RefLookup) : Case :=
  let presenceMode :=
    if request.drugName ≠ "" && request.conditionName ≠ "" then PresenceMode.BOTH
    else if request.drugName ≠ "" then PresenceMode.DRUG_ONLY
    else if request.conditionName ≠ "" then PresenceMode.CONDITION_ONLY
    else PresenceMode.NEITHER
  let knownness :=
    if ref.drugKnown && ref.conditionKnown then Knownness.KNOWN_REPURPOSING
    else if ref.drugKnown then Knownness.LIKELY_REPURPOSING
    else if ref.conditionCommon then Knownness.EXPLORATORY
    else Knownness.NOVEL
  let priority : Nat :=
    if ref.drugKnown && ref.conditionKnown then 5
    else if ref.drugKnown then 4
    else if ref.conditionCommon then 3
    else 2
  let selectedAgents :=
    match presenceMode with
    | PresenceMode.NEITHER => [AgentKind.trendScan]
    | _ => [AgentKind.literature, AgentKind.trials, AgentKind.patents,
            AgentKind.regulatory, AgentKind.market]
  { presenceMode := presenceMode
    knownness := knownness
    priority := priority
    selectedAgents := selectedAgents }

/-- Modelled from the spec: the terminal outcome of one agent task. -/
inductive AgentOutcome where
  | success (confidence : ℚ)
  | timedOut
  | failed (reason : String)

/-- Modelled from the spec: the five scoring dimensions. -/
inductive Dimension where
  | science
  | trials
  | patents
  | regulatory
  | market
deriving DecidableEq, Repr

/-- Modelled from the spec: an evidence bundle holds one outcome per
dimension. -/
def EvidenceBundle := Dimension → AgentOutcome

/-- Modelled from the spec: the fixed neutral-low default sub-score a
`TimedOut` or `Failed` outcome contributes (matching the 50-point base score
of `calculateGenericScore` and the middle of the 40-55 neutral-low range of
Scenario B). -/
def defaultSubScore : ℚ := 50

/-- Modelled from the spec: the sub-score of one dimension, from its
outcome: a `Success` contributes a sub-score derived from the reported
confidence; `TimedOut` and `Failed` contribute the fixed neutral-low
default. -/
def outcomeSubScore : AgentOutcome → ℚ
  | AgentOutcome.success confidence => confidence
  | AgentOutcome.timedOut => defaultSubScore
  | AgentOutcome.failed _ => defaultSubScore

/-- Modelled from the spec: one 0-100 sub-score per dimension. -/
structure SubScores where
  science : ℚ
  trials : ℚ
  patents : ℚ
  regulatory : ℚ
  market : ℚ
deriving DecidableEq, Repr

/-- Modelled from the spec: the per-dimension sub-scores of a bundle. -/
def bundleSubScores (bundle : EvidenceBundle) : SubScores :=
  { science := outcomeSubScore (bundle Dimension.science)
    trials := outcomeSubScore (bundle Dimension.trials)
    patents := outcomeSubScore (bundle Dimension.patents)
    regulatory := outcomeSubScore (bundle Dimension.regulatory)
    market := outcomeSubScore (bundle Dimension.market) }

/-- Modelled from the spec: the canonical weight table
`science 25, trials 30, patents 10, regulatory 20, market 15` applied to the
sub-scores, divided by the weight total of 100. -/
def weightedSum (s : SubScores) : ℚ :=
  (25 * s.science + 30 * s.trials + 10 * s.patents +
    20 * s.regulatory + 15 * s.market) / 100

/-- Rounding to one decimal. -/
def roundToTenth (q : ℚ) : ℚ := (round (10 * q) : ℤ) / 10

/-- Clamping to the interval [0, 100]. -/
def clamp0100 (q : ℚ) : ℚ := min 100 (max 0 q)

/-- Modelled from the spec: composite score = weighted sum of sub-scores,
rounded to one decimal, clamped to [0, 100]. -/
def compositeScore (s : SubScores) : ℚ :=
  clamp0100 (roundToTenth (weightedSum s))

/-- Modelled from the spec: the verdicts of the decision engine. -/
inductive Verdict where
  | STRONG_GO
  | GO
  | CONDITIONAL_GO
  | NO_GO
deriving DecidableEq, Repr

/-- Modelled from the spec: the canonical 4-tier threshold table of
`decide(breakdown)`. -/
def decideVerdict (composite : ℚ) : Verdict :=
  if 80 ≤ composite then Verdict.STRONG_GO
  else if 65 ≤ composite then Verdict.GO
  else if 50 ≤ composite then Verdict.CONDITIONAL_GO
  else Verdict.NO_GO

/-! ## Lemmas: score ranges of the analysis chain -/

theorem calculateGenericScore_range (d c : String) :
    45 ≤ calculateGenericScore d c ∧ calculateGenericScore d c ≤ 85 := by
  unfold calculateGenericScore
  exact ⟨le_min (by norm_num) (le_max_left _ _), min_le_left _ _⟩

theorem metforminStep_score_range {a : Analysis} {d c : String}
    (h : 65 ≤ a.score ∧ a.score ≤ 98) :
    65 ≤ (metforminStep d c a).score ∧ (metforminStep d c a).score ≤ 98 := by
  unfold metforminStep
  split_ifs <;> simp_all

theorem aspirinStep_score_range {a : Analysis} {d c : String}
    (h : 65 ≤ a.score ∧ a.score ≤ 98) :
    65 ≤ (aspirinStep d c a).score ∧ (aspirinStep d c a).score ≤ 98 := by
  unfold aspirinStep
  split_ifs <;> simp_all

theorem sildenafilStep_score_range {a : Analysis} {d c : String}
    (h : 65 ≤ a.score ∧ a.score ≤ 98) :
    65 ≤ (sildenafilStep d c a).score ∧ (sildenafilStep d c a).score ≤ 98 := by
  unfold sildenafilStep
  split_ifs <;> simp_all

theorem thalidomideStep_score_range {a : Analysis} {d c : String}
    (h : 65 ≤ a.score ∧ a.score ≤ 98) :
    65 ≤ (thalidomideStep d c a).score ∧ (thalidomideStep d c a).score ≤ 98 := by
  unfold thalidomideStep
  split_ifs <;> simp_all

theorem zincStep_score_range {a : Analysis} {d c : String}
    (h : 65 ≤ a.score ∧ a.score ≤ 98) :
    65 ≤ (zincStep d c a).score ∧ (zincStep d c a).score ≤ 98 := by
  unfold zincStep
  split_ifs <;> simp_all

/-- The score accumulated over the five drug blocks stays in [65, 98]. -/
theorem drugSteps_score_range (d c : String) :
    65 ≤ (zincStep d c (thalidomideStep d c (sildenafilStep d c
      (aspirinStep d c (metforminStep d c initialAnalysis))))).score ∧
    (zincStep d c (thalidomideStep d c (sildenafilStep d c
      (aspirinStep d c (metforminStep d c initialAnalysis))))).score ≤ 98 :=
  zincStep_score_range (thalidomideStep_score_range (sildenafilStep_score_range
    (aspirinStep_score_range (metforminStep_score_range (by norm_num [initialAnalysis])))))

/-- A marked-known analysis keeps the score the drug blocks produced: the
generic block only rewrites the record when `knownRepurposing` is false. -/
theorem analyze_known_score_ge (d c : String) :
    (analyzeDrugConditionPair d c).knownRepurposing = true →
    65 ≤ (analyzeDrugConditionPair d c).score := by
  unfold analyzeDrugConditionPair
  intro h
  rcases drugSteps_score_range d c with ⟨h1, _⟩
  unfold genericStep at h ⊢
  split_ifs at h ⊢ with hk
  · simp_all
  · exact h1

theorem analyze_score_range (d c : String) :
    45 ≤ (analyzeDrugConditionPair d c).score ∧
    (analyzeDrugConditionPair d c).score ≤ 98 := by
  unfold analyzeDrugConditionPair
  rcases drugSteps_score_range d c with ⟨h1, h2⟩
  rcases calculateGenericScore_range d c with ⟨g1, g2⟩
  unfold genericStep
  split_ifs <;> constructor <;> simp_all <;> omega

/-! ## Lemmas: monotonicity -/

theorem roundToTenth_mono {x y : ℚ} (h : x ≤ y) : roundToTenth x ≤ roundToTenth y := by
  unfold roundToTenth
  have h1 : round (10 * x) ≤ round (10 * y) := by
    rw [round_eq, round_eq]
    exact Int.floor_le_floor (by linarith)
  have h2 : ((round (10 * x) : ℤ) : ℚ) ≤ ((round (10 * y) : ℤ) : ℚ) := by exact_mod_cast h1
  linarith

theorem clamp0100_mono {x y : ℚ} (h : x ≤ y) : clamp0100 x ≤ clamp0100 y := by
  unfold clamp0100
  exact min_le_min (le_refl _) (max_le_max (le_refl _) h)

theorem clamp0100_bounds (q : ℚ) : 0 ≤ clamp0100 q ∧ clamp0100 q ≤ 100 := by
  unfold clamp0100
  exact ⟨le_min (by norm_num) (le_max_left _ _), min_le_left _ _⟩

/-- One `score += k` step of `calculateGenericScore`, monotone in both the
guard and the accumulated score. -/
theorem bonusStep_mono {b b' : Bool} {s s' k : Nat} (hb : b = true → b' = true)
    (hs : s ≤ s') : (if b then s + k else s) ≤ (if b' then s' + k else s') := by
  cases b <;> cases b' <;> simp_all
  all_goals omega

theorem calculateGenericScore_mono {d c d' c' : String}
    (hd : ∀ p, strIncludes d p = true → strIncludes d' p = true)
    (hc : ∀ p, strIncludes c p = true → strIncludes c' p = true) :
    calculateGenericScore d c ≤ calculateGenericScore d' c' := by
  unfold calculateGenericScore
  have hdor : ∀ p q, (strIncludes d p || strIncludes d q) = true →
      (strIncludes d' p || strIncludes d' q) = true := by
    intro p q h
    simp only [Bool.or_eq_true] at h ⊢
    rcases h with h | h
    · exact Or.inl (hd p h)
    · exact Or.inr (hd q h)
  have hcor : ∀ p q, (strIncludes c p || strIncludes c q) = true →
      (strIncludes c' p || strIncludes c' q) = true := by
    intro p q h
    simp only [Bool.or_eq_true] at h ⊢
    rcases h with h | h
    · exact Or.inl (hc p h)
    · exact Or.inr (hc q h)
  have hand : ∀ p q, (strIncludes d p && strIncludes c q) = true →
      (strIncludes d' p && strIncludes c' q) = true := by
    intro p q h
    simp only [Bool.and_eq_true] at h ⊢
    exact ⟨hd p h.1, hc q h.2⟩
  refine min_le_min (le_refl 85) (max_le_max (le_refl 45) ?_)
  exact bonusStep_mono (hand _ _)
    (bonusStep_mono (hand _ _)
      (bonusStep_mono (hc _)
        (bonusStep_mono (hcor _ _)
          (bonusStep_mono (hcor _ _)
            (bonusStep_mono (hdor _ _)
              (bonusStep_mono (hdor _ _)
                (bonusStep_mono (hdor _ _) (le_refl 50))))))))

/-! ## Claims -/

/-- C1: for every request the pipeline produces a complete report and never
fails: when the backend call errors, `handleSearch` falls back to the locally
generated analysis, and `getMedicallyAccurateData` returns a full report
object (non-empty papers, trials, patents and recommendations, with a 0-100
score) for every drug-name/condition input, including unrecognized ones. -/
theorem C1_pipeline_always_reports :
    ∀ (query : Query) (d c : String),
      handleSearch none query =
        { drugName := query.drugName
          targetCondition := query.targetCondition
          data := getMedicallyAccurateData query.drugName query.targetCondition } ∧
      (getMedicallyAccurateData d c).researchPapers ≠ [] ∧
      (getMedicallyAccurateData d c).clinicalTrials ≠ [] ∧
      (getMedicallyAccurateData d c).patents ≠ [] ∧
      (getMedicallyAccurateData d c).recommendations ≠ [] ∧
      65 ≤ (getMedicallyAccurateData d c).repurposeabilityScore ∧
      (getMedicallyAccurateData d c).repurposeabilityScore ≤ 100 := by
  intro query d c
  refine ⟨rfl, ?_⟩
  simp only [getMedicallyAccurateData]
  split_ifs <;> exact ⟨by simp, by simp, by simp, by simp, by norm_num, by norm_num⟩

/-- C3: the verdict is determined from the composite score by the canonical
4-tier threshold table (80 / 65 / 50); exactly 80.0 yields STRONG_GO and
exactly 79.9 yields GO. -/
theorem C3_verdict_threshold_table :
    (∀ q : ℚ, 80 ≤ q → decideVerdict q = Verdict.STRONG_GO) ∧
    (∀ q : ℚ, 65 ≤ q → q < 80 → decideVerdict q = Verdict.GO) ∧
    (∀ q : ℚ, 50 ≤ q → q < 65 → decideVerdict q = Verdict.CONDITIONAL_GO) ∧
    (∀ q : ℚ, q < 50 → decideVerdict q = Verdict.NO_GO) ∧
    decideVerdict 80 = Verdict.STRONG_GO ∧
    decideVerdict (799 / 10) = Verdict.GO := by
  refine ⟨?_, ?_, ?_, ?_, ?_, ?_⟩
  · intro q h
    unfold decideVerdict
    rw [if_pos h]
  · intro q h1 h2
    unfold decideVerdict
    rw [if_neg (by linarith), if_pos h1]
  · intro q h1 h2
    unfold decideVerdict
    rw [if_neg (by linarith), if_neg (by linarith), if_pos h1]
  · intro q h
    unfold decideVerdict
    rw [if_neg (by linarith), if_neg (by linarith), if_neg (by linarith)]
  · norm_num [decideVerdict]
  · norm_num [decideVerdict]

/-- Witness for C3 at concrete composites. -/
theorem C3_witness :
    decideVerdict 92 = Verdict.STRONG_GO ∧ decideVerdict 70 = Verdict.GO ∧
    decideVerdict 55 = Verdict.CONDITIONAL_GO ∧ decideVerdict 42 = Verdict.NO_GO :=
  ⟨C3_verdict_threshold_table.1 92 (by norm_num),
   C3_verdict_threshold_table.2.1 70 (by norm_num) (by norm_num),
   C3_verdict_threshold_table.2.2.1 55 (by norm_num) (by norm_num),
   C3_verdict_threshold_table.2.2.2.1 42 (by norm_num)⟩

/-- C4: a TimedOut or Failed outcome contributes the fixed neutral-low
default sub-score (non-zero, below the 65 passing line); with every
dimension unavailable the composite is 50, inside the 40-55 neutral-low
range, and the verdict is CONDITIONAL_GO.  The 50-point default matches the
base score `calculateGenericScore` gives a pair with no recognized
evidence. -/
theorem C4_neutral_low_default :
    outcomeSubScore AgentOutcome.timedOut = defaultSubScore ∧
    (∀ r, outcomeSubScore (AgentOutcome.failed r) = defaultSubScore) ∧
    defaultSubScore ≠ 0 ∧ defaultSubScore < 65 ∧
    compositeScore (bundleSubScores fun _ => AgentOutcome.timedOut) = 50 ∧
    40 ≤ compositeScore (bundleSubScores fun _ => AgentOutcome.timedOut) ∧
    compositeScore (bundleSubScores fun _ => AgentOutcome.timedOut) ≤ 55 ∧
    decideVerdict (compositeScore (bundleSubScores fun _ => AgentOutcome.timedOut)) =
      Verdict.CONDITIONAL_GO ∧
    calculateGenericScore "drugx" "conditiony" = 50 := by
  have hcomp : compositeScore (bundleSubScores fun _ => AgentOutcome.timedOut) = 50 := by
    norm_num [compositeScore, clamp0100, roundToTenth, weightedSum, bundleSubScores,
      outcomeSubScore, defaultSubScore, round_eq]
  refine ⟨rfl, fun r => rfl, by norm_num [defaultSubScore], by norm_num [defaultSubScore],
    hcomp, ?_, ?_, ?_, by decide⟩
  · rw [hcomp]; norm_num
  · rw [hcomp]; norm_num
  · rw [hcomp]; norm_num [decideVerdict]

/-- C5: classification is pure and total; a fully empty request is routed to
the trend-only workflow (presenceMode NEITHER, only the trend-scan agent),
and every request is routed to a non-empty agent set. -/
theorem C5_empty_request_trend_only :
    (∀ ref : RefLookup,
      (classify { drugName := "", conditionName := "" } ref).presenceMode =
        PresenceMode.NEITHER ∧
      (classify { drugName := "", conditionName := "" } ref).selectedAgents =
        [AgentKind.trendScan]) ∧
    (∀ (request : Request) (ref : RefLookup),
      (classify request ref).selectedAgents ≠ []) := by
  constructor
  · intro ref
    constructor <;> simp [classify]
  · intro request ref
    simp only [classify]
    split_ifs <;> simp

/-- C9: the search form dispatches a query only when both fields are
non-empty after trimming, and the dispatched query carries the trimmed
values. -/
theorem C9_submit_only_trimmed_nonempty :
    ∀ (drugName targetCondition : String) (q : Query),
      handleSubmit drugName targetCondition = some q →
      q.drugName = jsTrim drugName ∧ q.targetCondition = jsTrim targetCondition ∧
      q.drugName ≠ "" ∧ q.targetCondition ≠ "" := by
  intro d c q h
  unfold handleSubmit at h
  split_ifs at h with hc
  · cases h
    exact ⟨rfl, rfl, hc.1, hc.2⟩

/-- Witness for C9 at a concrete padded input. -/
theorem C9_witness :
    (⟨"aspirin", "flu"⟩ : Query).drugName = jsTrim " aspirin " ∧
    (⟨"aspirin", "flu"⟩ : Query).targetCondition = jsTrim "flu" ∧
    (⟨"aspirin", "flu"⟩ : Query).drugName ≠ "" ∧
    (⟨"aspirin", "flu"⟩ : Query).targetCondition ≠ "" :=
  C9_submit_only_trimmed_nonempty " aspirin " "flu" ⟨"aspirin", "flu"⟩ (by decide)

/-- C2 counterexample: running the fallback analysis twice on the same
drug/condition with different `Math.random()` streams yields different
reports (the market-size field differs), so the full report is not a pure
function of the pair. -/
theorem C2_counterexample :
    generateWithIntelligentFallback (fun _ _ => 0) 2024 "Metformin" "Cancer" ≠
    generateWithIntelligentFallback (fun _ n => n / 2) 2024 "Metformin" "Cancer" := by
  intro h
  exact absurd (congrArg (fun r => r.marketFeasibility.marketSize) h) (by decide)

/-- C2 amended: the repurposeability score is deterministic — it depends
only on the drug/condition pair, not on the random draws (or the current
year) used for the surrounding report fields. -/
theorem C2_score_deterministic :
    ∀ (rng rng' : Nat → Nat → Nat) (year year' : Nat) (drugName targetCondition : String),
      (generateWithIntelligentFallback rng year drugName targetCondition).repurposeabilityScore =
      (generateWithIntelligentFallback rng' year' drugName targetCondition).repurposeabilityScore := by
  intro rng rng' year year' drugName targetCondition
  rfl

/-- C10: the fallback analysis lowercases and trims both inputs before
matching, so the computed score is invariant under case changes and
surrounding whitespace. -/
theorem C10_case_whitespace_invariant :
    ∀ (d c d' c' : String) (rng rng' : Nat → Nat → Nat) (year year' : Nat),
      jsTrim (jsToLowerCase d) = jsTrim (jsToLowerCase d') →
      jsTrim (jsToLowerCase c) = jsTrim (jsToLowerCase c') →
      (generateWithIntelligentFallback rng year d c).repurposeabilityScore =
      (generateWithIntelligentFallback rng' year' d' c').repurposeabilityScore := by
  intro d c d' c' rng rng' year year' hd hc
  show (analyzeDrugConditionPair (jsTrim (jsToLowerCase d)) (jsTrim (jsToLowerCase c))).score =
    (analyzeDrugConditionPair (jsTrim (jsToLowerCase d')) (jsTrim (jsToLowerCase c'))).score
  rw [hd, hc]

/-- Witness for C10: mixed-case, padded input against its normal form. -/
theorem C10_witness :
    (generateWithIntelligentFallback (fun _ _ => 0) 2024 " Metformin " "CANCER").repurposeabilityScore =
    (generateWithIntelligentFallback (fun _ _ => 1) 2025 "metformin" "cancer").repurposeabilityScore :=
  C10_case_whitespace_invariant " Metformin " "CANCER" "metformin" "cancer"
    (fun _ _ => 0) (fun _ _ => 1) 2024 2025 (by decide) (by decide)

/-- C6: the established repurposing pairs of the reference data are marked
as known repurposing with scores of at least 65; in general every pair the
analysis marks as known repurposing scores at least 65, and any composite of
at least 65 yields a GO or STRONG_GO verdict. -/
theorem C6_known_repurposing_go :
    ((analyzeDrugConditionPair "metformin" "cancer").knownRepurposing = true ∧
      (analyzeDrugConditionPair "metformin" "cancer").score = 89) ∧
    ((analyzeDrugConditionPair "metformin" "pcos").knownRepurposing = true ∧
      (analyzeDrugConditionPair "metformin" "pcos").score = 95) ∧
    ((analyzeDrugConditionPair "aspirin" "cardiovascular disease").knownRepurposing = true ∧
      (analyzeDrugConditionPair "aspirin" "cardiovascular disease").score = 92) ∧
    ((analyzeDrugConditionPair "sildenafil" "pulmonary hypertension").knownRepurposing = true ∧
      (analyzeDrugConditionPair "sildenafil" "pulmonary hypertension").score = 93) ∧
    ((analyzeDrugConditionPair "thalidomide" "multiple myeloma").knownRepurposing = true ∧
      (analyzeDrugConditionPair "thalidomide" "multiple myeloma").score = 88) ∧
    ((analyzeDrugConditionPair "zinc" "diarrhea").knownRepurposing = true ∧
      (analyzeDrugConditionPair "zinc" "diarrhea").score = 91) ∧
    (∀ d c, (analyzeDrugConditionPair d c).knownRepurposing = true →
      65 ≤ (analyzeDrugConditionPair d c).score) ∧
    (∀ q : ℚ, 65 ≤ q → decideVerdict q = Verdict.GO ∨ decideVerdict q = Verdict.STRONG_GO) := by
  refine ⟨by decide, by decide, by decide, by decide, by decide, by decide,
    analyze_known_score_ge, ?_⟩
  intro q h
  unfold decideVerdict
  split_ifs with h1
  · exact Or.inr rfl
  · exact Or.inl rfl

/-- Witness for C6: the universal parts at the zinc/diarrhea pair. -/
theorem C6_witness :
    65 ≤ (analyzeDrugConditionPair "zinc" "diarrhea").score ∧
    (decideVerdict 91 = Verdict.GO ∨ decideVerdict 91 = Verdict.STRONG_GO) :=
  ⟨C6_known_repurposing_go.2.2.2.2.2.2.1 "zinc" "diarrhea" (by decide),
   C6_known_repurposing_go.2.2.2.2.2.2.2 91 (by norm_num)⟩

/-- C7: the composite equals the weighted sum rounded to one decimal and
clamped to [0, 100], hence always lies in [0, 100]; the frontend analysis
score always lies in [45, 98] ⊆ [0, 100] for every input. -/
theorem C7_composite_range :
    (∀ s : SubScores, compositeScore s = clamp0100 (roundToTenth (weightedSum s))) ∧
    (∀ s : SubScores, 0 ≤ compositeScore s ∧ compositeScore s ≤ 100) ∧
    (∀ (rng : Nat → Nat → Nat) (year : Nat) (d c : String),
      (generateWithIntelligentFallback rng year d c).repurposeabilityScore ≤ 100) ∧
    (∀ d c, 45 ≤ (analyzeDrugConditionPair d c).score ∧
      (analyzeDrugConditionPair d c).score ≤ 98) := by
  refine ⟨fun s => rfl, fun s => clamp0100_bounds _, ?_, analyze_score_range⟩
  intro rng year d c
  calc (generateWithIntelligentFallback rng year d c).repurposeabilityScore
      = (analyzeDrugConditionPair (jsTrim (jsToLowerCase d))
          (jsTrim (jsToLowerCase c))).score := rfl
    _ ≤ 98 := (analyze_score_range _ _).2
    _ ≤ 100 := by norm_num

/-- C8: raising any sub-score (componentwise) never decreases the composite,
and extending the drug or condition text (which can only add keyword
matches) never lowers the generic score. -/
theorem C8_monotonicity :
    (∀ s t : SubScores,
      s.science ≤ t.science → s.trials ≤ t.trials → s.patents ≤ t.patents →
      s.regulatory ≤ t.regulatory → s.market ≤ t.market →
      compositeScore s ≤ compositeScore t) ∧
    (∀ d c e : String, calculateGenericScore d c ≤ calculateGenericScore (d ++ e) c) ∧
    (∀ d c e : String, calculateGenericScore d c ≤ calculateGenericScore d (c ++ e)) := by
  refine ⟨?_, ?_, ?_⟩
  · intro s t h1 h2 h3 h4 h5
    apply clamp0100_mono
    apply roundToTenth_mono
    unfold weightedSum
    have h100 : (0:ℚ) < 100 := by norm_num
    rw [div_le_div_iff₀ h100 h100]
    nlinarith
  · intro d c e
    exact calculateGenericScore_mono (fun p hp => strIncludes_append d e p hp) (fun p hp => hp)
  · intro d c e
    exact calculateGenericScore_mono (fun p hp => hp) (fun p hp => strIncludes_append c e p hp)

/-- Witness for C8: raising the science sub-score from 50 to 100. -/
theorem C8_witness :
    compositeScore ⟨50, 50, 50, 50, 50⟩ ≤ compositeScore ⟨100, 50, 50, 50, 50⟩ :=
  C8_monotonicity.1 ⟨50, 50, 50, 50, 50⟩ ⟨100, 50, 50, 50, 50⟩ (by norm_num) (by norm_num)
    (by norm_num) (by norm_num) (by norm_num)
